import Mathlib

/-!
Shallow embedding of the core of `src/claude-mcp.py` (classes `EC2Manager` and
`ModelContextProtocol`) and of the GitHub-runner listing in
`src/fluffys/main.py` (`_get_all_gh_runners`, `list_runners_connected_to_github`).

Remote AWS/GitHub calls are opaque collaborators; each embedded function takes
the outcome of the remote call it performs as an explicit argument:
`Except String α` stands for a Python call that either returns a value or
raises a remote-failure exception (`ClientError`, carrying `str(e)`).
Mutation of `self.session_data` is modelled by explicit state passing.
-/

namespace ClaudeMcp

/-- One `{'Key': ..., 'Value': ...}` tag entry as returned by `describe_instances`. -/
structure Tag where
  key : String
  value : String
deriving DecidableEq, Repr

/-- One raw instance record inside a reservation of the `describe_instances`
response (the fields `EC2Manager.list_instances` reads; `.get` with a default
is modelled by `Option`). -/
structure RawInstance where
  InstanceId : String
  InstanceType : String
  StateName : String
  PrivateIpAddress : Option String
  PublicIpAddress : Option String
  LaunchTimeIso : Option String
  PlatformDetails : Option String
  Tags : List Tag
deriving DecidableEq, Repr

/-- One reservation of the `describe_instances` response. -/
structure Reservation where
  Instances : List RawInstance
deriving DecidableEq, Repr

/-- The dictionary `EC2Manager.list_instances` builds per kept instance
(lines 107-118 of `src/claude-mcp.py`). -/
structure InstanceInfo where
  InstanceId : String
  Name : String
  «Type» : String
  State : String
  PrivateIP : String
  PublicIP : String
  SSM_Status : String
  LaunchTime : String
  Platform : String
  Tags : List Tag
deriving DecidableEq, Repr

/-- The remote-execution agent's registry: per instance id, the
`describe_instance_information` call either raises (`.error`) or returns the
`InstanceInformationList` (here just a list of registered ids). -/
def SsmRegistry : Type := String → Except String (List String)

/-- Embeds `EC2Manager._check_ssm_status` (lines 122-132): non-empty information list
gives `'Available'`, empty gives `'Not Available'`, a `ClientError` is caught
and gives `'Unknown'`. -/
def check_ssm_status (registry : SsmRegistry) (instance_id : String) : String :=
  match registry instance_id with
  | .ok infoList => if infoList.isEmpty then "Not Available" else "Available"
  | .error _ => "Unknown"

/-- Name extraction in `list_instances` (lines 95-99): the first tag whose key
is `'Name'`, else `'Unnamed'`. -/
def instanceName (tags : List Tag) : String :=
  match tags.find? (fun t => t.key == "Name") with
  | some t => t.value
  | none => "Unnamed"

/-- The per-instance dictionary built at lines 107-118. `instance.get(k, 'N/A')`
becomes `Option.getD`; `LaunchTime` is `isoformat()` when present (modelled as
the pre-formatted string), `'N/A'` when absent. -/
def mkInstanceInfo (inst : RawInstance) (name ssm_status : String) : InstanceInfo :=
  { InstanceId := inst.InstanceId
    Name := name
    «Type» := inst.InstanceType
    State := inst.StateName
    PrivateIP := inst.PrivateIpAddress.getD "N/A"
    PublicIP := inst.PublicIpAddress.getD "N/A"
    SSM_Status := ssm_status
    LaunchTime := inst.LaunchTimeIso.getD "N/A"
    Platform := inst.PlatformDetails.getD "N/A"
    Tags := inst.Tags }

/-- The body of the inner instance loop of `EC2Manager.list_instances`
(lines 93-118): name extraction, the per-instance reachability check, the
`ssm_only`-`continue` at lines 103-105, and the built dictionary. -/
def keepInstance (registry : SsmRegistry) (ssm_only : Bool) (inst : RawInstance) :
    Option InstanceInfo :=
  let name := instanceName inst.Tags
  let ssm_status := check_ssm_status registry inst.InstanceId
  if ssm_only && !(ssm_status == "Available") then
    none
  else
    some (mkInstanceInfo inst name ssm_status)

/-- Embeds `EC2Manager.list_instances` (lines 52-120) from the
`describe_instances` response onward. The filter construction (lines 65-87)
only shapes the remote request, so the remote outcome is the argument
`describeResult`; a raised `ClientError` from `describe_instances` (line 89)
is NOT caught and propagates (the `Except` bind). The nested
reservation/instance loops become `flatMap`/`filterMap` over
`keepInstance`. -/
def list_instances (describeResult : Except String (List Reservation))
    (registry : SsmRegistry) (ssm_only : Bool) : Except String (List InstanceInfo) := do
  let response ← describeResult
  pure <| response.flatMap fun reservation =>
    reservation.Instances.filterMap (keepInstance registry ssm_only)

/-- Embeds `EC2Manager.run_command` (lines 134-156): `send_command` either returns a
command id or raises `ClientError`, which is caught, logged and turned into
`None`. -/
def run_command (sendResult : Except String String) : Option String :=
  match sendResult with
  | .ok commandId => some commandId
  | .error _ => none

/-- The `{'Status', 'Output', 'Error'}` dictionary returned by
`EC2Manager.get_command_output`. -/
structure CommandOutput where
  Status : String
  Output : String
  Error : String
deriving DecidableEq, Repr

/-- The `get_command_invocation` response fields read at lines 185-189
(`.get(..., '')` modelled by `Option`). -/
structure InvocationResponse where
  Status : String
  StandardOutputContent : Option String
  StandardErrorContent : Option String
deriving DecidableEq, Repr

/-- Outcome of `waiter.wait` on the `command_executed` waiter (lines 173-177):
it either returns, or raises `WaiterError` — on a terminal
Failed/TimedOut/Cancelled invocation status or when the polling attempts are
exhausted. The waiter machinery absorbs polling `ClientError`s into the
polled response, so `WaiterError` is the wait phase's failure channel, and it
is NOT a `ClientError`. -/
inductive WaitOutcome where
  | ok
  | waiterError (msg : String)
deriving DecidableEq, Repr

/-- Embeds `EC2Manager.get_command_output` (lines 158-196). The body sits in a
`try ... except ClientError`. When `wait` is true, `waiter.wait` runs first;
a `WaiterError` it raises is not a `ClientError`, escapes the handler and
propagates to the caller — modelled as `.error e`. A `ClientError` raised by
`get_command_invocation` IS caught and yields the degraded
`{'Status': 'Failed', 'Output': '', 'Error': str(e)}` dictionary, returned
normally. -/
def get_command_output (waitResult : WaitOutcome)
    (invocationResult : Except String InvocationResponse) (wait : Bool) :
    Except String CommandOutput :=
  match wait, waitResult with
  | true, .waiterError e => .error e
  | _, _ =>
    match invocationResult with
    | .ok response =>
      .ok { Status := response.Status
            Output := response.StandardOutputContent.getD ""
            Error := response.StandardErrorContent.getD "" }
    | .error e => .ok { Status := "Failed", Output := "", Error := e }

/-- One entry of `self.session_data['commands']` (lines 297-304). -/
structure CommandRecord where
  timestamp : String
  instance_id : String
  command : String
  status : String
  output : String
  command_id : String
deriving DecidableEq, Repr

/-- The mutable `self.session_data` dictionary (lines 211-215). -/
structure SessionData where
  session_id : String
  start_time : String
  commands : List CommandRecord
deriving DecidableEq, Repr

/-- The remote outcomes one `run_command_on_instance` call observes:
the `send_command` outcome, the waiter outcome, and the
`get_command_invocation` outcome. -/
structure RemoteEnv where
  sendResult : Except String String
  waitResult : WaitOutcome
  invocationResult : Except String InvocationResponse
deriving Repr

/-- Return value of `ModelContextProtocol.run_command_on_instance`: either the
early `{"status": "Failed", "error": "Failed to send command"}` dictionary
(line 291, lowercase keys) or the dictionary from `get_command_output`
(line 308, capitalised keys). -/
inductive RunCommandResult where
  | sendFailed (status error : String)
  | completed (output : CommandOutput)
deriving DecidableEq, Repr

/-- Python truthiness of the `command_id` at line 290: `None` and `''` are
falsy. -/
def pyTruthy (commandId : Option String) : Bool :=
  match commandId with
  | none => false
  | some s => !s.isEmpty

/-- The truncation expression at line 302:
`output['Output'][:1000] if len(output['Output']) > 1000 else output['Output']`. -/
def truncatedOutput (s : String) : String :=
  if s.length > 1000 then s.take 1000 else s

/-- The record dictionary built at lines 297-304 from the live retrieved
`output`. -/
def commandRecordOf (now instance_id command command_id : String)
    (output : CommandOutput) : CommandRecord :=
  { timestamp := now
    instance_id := instance_id
    command := command
    status := output.Status
    output := truncatedOutput output.Output
    command_id := command_id }

/-- Embeds `ModelContextProtocol.run_command_on_instance` (lines 278-308).
`now` is `datetime.datetime.now().isoformat()` at line 298. On a falsy
command id the history is untouched and the lowercase-key failure dictionary
is returned (lines 290-291). Otherwise `get_command_output` runs; if it
raises (an uncaught `WaiterError` from the wait phase), the exception
propagates out of this method too, before the append at line 306 — modelled
as `.error e`. If it returns, exactly one record is appended (line 306) and
the untruncated live `output` dictionary is returned (line 308). -/
def run_command_on_instance (env : RemoteEnv) (now instance_id command : String)
    (s : SessionData) : Except String (RunCommandResult × SessionData) :=
  let command_id := run_command env.sendResult
  if !pyTruthy command_id then
    .ok (.sendFailed "Failed" "Failed to send command", s)
  else
    match get_command_output env.waitResult env.invocationResult true with
    | .error e => .error e
    | .ok output =>
      .ok (.completed output,
        { s with commands :=
            s.commands ++ [commandRecordOf now instance_id command (command_id.getD "") output] })

/-- Python `dict` assignment `d[k] = v` on an insertion-ordered dictionary
(association list): an existing key keeps its position and gets the new value,
a new key is appended at the end. -/
def dictAssign (d : List (String × String)) (k v : String) : List (String × String) :=
  if d.any (fun p => p.1 == k) then
    d.map (fun p => if p.1 == k then (k, v) else p)
  else
    d ++ [(k, v)]

/-- The `tags_dict` loop at lines 223-225 of `_format_instances_for_context`. -/
def tagsDict (tags : List Tag) : List (String × String) :=
  tags.foldl (fun d t => dictAssign d t.key t.value) []

/-- One simplified instance dictionary built at lines 227-235. -/
structure SimplifiedInstance where
  id : String
  name : String
  type : String
  private_ip : String
  platform : String
  ssm_status : String
  tags : List (String × String)
deriving DecidableEq, Repr

/-- Embeds `ModelContextProtocol._format_instances_for_context` (lines 217-237). -/
def format_instances_for_context (instances : List InstanceInfo) : List SimplifiedInstance :=
  instances.map fun instInfo =>
    { id := instInfo.InstanceId
      name := instInfo.Name
      type := instInfo.«Type»
      private_ip := instInfo.PrivateIP
      platform := instInfo.Platform
      ssm_status := instInfo.SSM_Status
      tags := tagsDict instInfo.Tags }

/-- The context dictionary built by `generate_context` (lines 260-276).
`command_history` is `none` when the key is absent from the dictionary and
`some h` when line 274 put it there. -/
structure Context where
  schema_version : String
  session_id : String
  session_start_time : String
  aws_region : String
  ec2_instances : List SimplifiedInstance
  command_history : Option (List CommandRecord)
deriving DecidableEq, Repr

/-- Embeds `ModelContextProtocol.generate_context` (lines 239-276). It calls
`list_instances` without passing `ssm_only`, so the Python default
`ssm_only=True` (line 52) applies: `true` below. A failure of the directory
query propagates through the `Except` bind. The `command_history` key is set
only when `include_commands` is true and `self.session_data['commands']` is
truthy, i.e. non-empty (line 273). -/
def generate_context (describeResult : Except String (List Reservation))
    (registry : SsmRegistry) (region : String) (include_commands : Bool)
    (s : SessionData) : Except String Context := do
  let instances ← list_instances describeResult registry true
  let context : Context :=
    { schema_version := "v1"
      session_id := s.session_id
      session_start_time := s.start_time
      aws_region := region
      ec2_instances := format_instances_for_context instances
      command_history := none }
  pure <| if include_commands && !s.commands.isEmpty then
    { context with command_history := some s.commands }
  else
    context

/-- Embeds `ModelContextProtocol.query_claude` (lines 310-364). Everything inside the
`try` block — the `invoke_model` request, reading and JSON-parsing the body and
extracting `content[0]['text']` — is the opaque model-query outcome
`invokeResult`; any exception `e` raised there is caught by the bare
`except Exception` and turned into the string at line 364:
`f"Error communicating with Claude: {str(e)}"`. -/
def query_claude (invokeResult : Except String String) : String :=
  match invokeResult with
  | .ok text => text
  | .error e => "Error communicating with Claude: " ++ e

/-- The arguments of one `run_command_on_instance` call together with the
remote outcomes it observes. -/
structure Call where
  env : RemoteEnv
  now : String
  instance_id : String
  command : String

/-- N sequential `run_command_on_instance` calls threading the session state.
A call that raises (uncaught `WaiterError`) leaves `self.session_data` as it
was — the append never ran — and the exception goes to the surrounding
caller; the session object itself keeps its prior state for any later call. -/
def runSequence (calls : List Call) (s : SessionData) : SessionData :=
  calls.foldl
    (fun st c =>
      match run_command_on_instance c.env c.now c.instance_id c.command st with
      | .ok (_, s2) => s2
      | .error _ => st)
    s

/-- The records one call appends to the session history: exactly one when the
submission id is truthy and retrieval returns (lines 297-306), none when the
submission failed (early return at line 291) or retrieval raised. -/
def callRecords (c : Call) : List CommandRecord :=
  let command_id := run_command c.env.sendResult
  if !pyTruthy command_id then
    []
  else
    match get_command_output c.env.waitResult c.env.invocationResult true with
    | .error _ => []
    | .ok output =>
      [commandRecordOf c.now c.instance_id c.command (command_id.getD "") output]

end ClaudeMcp

namespace Fluffys

/-!
Embedding of `_get_all_gh_runners` and `list_runners_connected_to_github` from
`src/fluffys/main.py`. A runner entry coming from the GitHub API is a
dictionary; the placeholder entries produced on missing token or fetch failure
are plain strings sitting in the same list, so list elements are the sum
`GhEntry`. The paginated HTTP fetch loop is the opaque outcome `FetchOutcome`.
-/

/-- The runner dictionary fields that `list_runners_connected_to_github`
reads: `id`, `name`, `status`, `busy` and the label names
(`[l['name'] for l in instance['labels']]`). The model's runner dictionary
carries exactly these fields. -/
structure GhRunner where
  id : Nat
  name : String
  status : String
  busy : Bool
  labels : List String
deriving DecidableEq, Repr

/-- An element of the list `_get_all_gh_runners` returns: either a runner
dictionary or one of the plain placeholder/error strings. -/
inductive GhEntry where
  | message (s : String)
  | runner (r : GhRunner)
deriving DecidableEq, Repr

/-- Outcome of the whole paginated `requests.get` loop (lines 354-387):
all runners collected, a raised `requests.exceptions.RequestException`, or any
other exception. -/
inductive FetchOutcome where
  | ok (runners : List GhRunner)
  | requestError (msg : String)
  | otherError (msg : String)
deriving Repr

/-- Embeds `_get_all_gh_runners` (lines 326-392). `token` is
`os.getenv("GITHUB_TOKEN_ADMIN_READ")`; `if not github_token` treats a missing
or empty variable as absent and returns the one-element placeholder list
(lines 333-335). Otherwise the two `except` clauses turn fetch failures into
one-element message lists (lines 389-392). The `@lru_cache` decorator only
memoises this pure computation and needs no modelling. -/
def _get_all_gh_runners (token : Option String) (fetch : FetchOutcome) : List GhEntry :=
  if !ClaudeMcp.pyTruthy token then
    [.message "GITHUB_TOKEN_ADMIN_READ environment variable is not set."]
  else
    match fetch with
    | .ok runners => runners.map .runner
    | .requestError e => [.message ("Error connecting to GitHub API: " ++ e)]
    | .otherError e => [.message ("Unexpected error: " ++ e)]

/-- Models `json.dumps` of a plain Python string that contains no character needing a
JSON escape (true of every placeholder string above): the string wrapped in
double quotes. -/
def json_dumps_str (s : String) : String := "\"" ++ s ++ "\""

/-- Models `json.dumps` of a list entry: a quoted string for a placeholder, the JSON
object of the modelled fields for a runner dictionary. -/
def json_dumps_entry : GhEntry → String
  | .message s => json_dumps_str s
  | .runner r =>
    "\x7b\"id\": " ++ toString r.id ++ ", \"name\": " ++ json_dumps_str r.name ++
    ", \"status\": " ++ json_dumps_str r.status ++
    ", \"busy\": " ++ (if r.busy then "true" else "false") ++
    ", \"labels\": [" ++
    String.intercalate ", " (r.labels.map (fun l => "\x7b\"name\": " ++ json_dumps_str l ++ "\x7d")) ++
    "]\x7d"

/-- ASCII lower-casing of one character, as Python lower-cases the ASCII
strings involved here. -/
def lowerChar (c : Char) : Char :=
  if 'A' ≤ c && c ≤ 'Z' then Char.ofNat (c.toNat + 32) else c

/-- Whether the first character list starts the second one. -/
def startsWithChars : List Char → List Char → Bool
  | [], _ => true
  | _ :: _, [] => false
  | p :: ps, t :: ts => (p == t) && startsWithChars ps ts

/-- Whether the first character list occurs inside the second one (the empty
list occurs everywhere). -/
def containsChars (pat : List Char) : List Char → Bool
  | [] => pat.isEmpty
  | t :: ts => startsWithChars pat (t :: ts) || containsChars pat ts

/-- Models `re.search(search_str, text, re.IGNORECASE)` restricted to search
strings without regex metacharacters (such as the concrete inputs used
below): a match is a case-insensitive substring occurrence, and the empty
pattern matches everything. -/
def re_search_ci (search_str text : String) : Bool :=
  containsChars (search_str.data.map lowerChar) (text.data.map lowerChar)

/-- The f-string at line 411 applied to one entry. On a placeholder entry,
`instance['id']` indexes a `str` with a string key, which raises
`TypeError: string indices must be integers` in Python. -/
def formatRunnerLine : GhEntry → Except String String
  | .runner r =>
    .ok (toString r.id ++ " " ++ r.name ++ " (" ++ r.status ++ ") " ++
      (if r.busy then "busy" else "") ++ " " ++ String.intercalate " " r.labels)
  | .message _ => .error "TypeError: string indices must be integers"

/-- The list comprehension at lines 410-415, element by element: the filter
`re.search(search_str, json.dumps(instance), re.IGNORECASE)` runs first, then
the f-string; the first exception aborts the whole comprehension. -/
def comprehendRunners (search_str : String) : List GhEntry → Except String (List String)
  | [] => .ok []
  | e :: rest =>
    if re_search_ci search_str (json_dumps_entry e) then do
      let line ← formatRunnerLine e
      let tail ← comprehendRunners search_str rest
      pure (line :: tail)
    else
      comprehendRunners search_str rest

/-- Embeds `list_runners_connected_to_github` (lines 395-415): take the cached entry
list, answer with the fixed no-instances message when it is empty, otherwise
run the comprehension (which may raise, hence `Except`). -/
def list_runners_connected_to_github (token : Option String) (fetch : FetchOutcome)
    (search_str : String) : Except String (List String) :=
  let all_instances := _get_all_gh_runners token fetch
  if all_instances.isEmpty then
    .ok ["No EC2 instances found connected to GitHub."]
  else
    comprehendRunners search_str all_instances

end Fluffys

namespace ClaudeMcp

/-! Helper lemmas shared by the claim theorems. -/

/-- The stored truncation never exceeds 1000 characters. -/
theorem truncatedOutput_length_le (s : String) : (truncatedOutput s).length ≤ 1000 := by
  unfold truncatedOutput
  split
  · rw [String.take_eq]
    show (s.1.take 1000).length ≤ 1000
    simp [List.length_take]
  · omega

/-- A call whose submission yields a truthy command id and whose retrieval
returns appends exactly its record and returns the live output. -/
theorem run_command_on_instance_ok (env : RemoteEnv) (now instance_id command : String)
    (s : SessionData) (o : CommandOutput)
    (hsend : pyTruthy (run_command env.sendResult) = true)
    (hretr : get_command_output env.waitResult env.invocationResult true = .ok o) :
    run_command_on_instance env now instance_id command s =
      .ok (.completed o,
        { s with commands := s.commands ++
            [commandRecordOf now instance_id command ((run_command env.sendResult).getD "") o] }) := by
  simp [run_command_on_instance, hsend, hretr]

/-- A call whose submission fails returns the failure dictionary with the
state unchanged, raising nothing. -/
theorem run_command_on_instance_err (env : RemoteEnv) (now instance_id command : String)
    (s : SessionData) (h : pyTruthy (run_command env.sendResult) = false) :
    run_command_on_instance env now instance_id command s =
      .ok (.sendFailed "Failed" "Failed to send command", s) := by
  simp [run_command_on_instance, h]

/-- A call whose retrieval raises propagates the exception with no append. -/
theorem run_command_on_instance_raise (env : RemoteEnv) (now instance_id command e : String)
    (s : SessionData) (hsend : pyTruthy (run_command env.sendResult) = true)
    (hretr : get_command_output env.waitResult env.invocationResult true = .error e) :
    run_command_on_instance env now instance_id command s = .error e := by
  simp [run_command_on_instance, hsend, hretr]

/-- C3: when `send_command` raises remotely, `run_command` returns the
sentinel `None` instead of raising, and `run_command_on_instance` then
returns (raising nothing, whatever the retrieval outcomes would have been)
the dictionary with status "Failed" and error "Failed to send command" while
the session history (the whole session state) is left unchanged. -/
theorem submit_failure_sentinel_history_unchanged (e now instance_id command : String)
    (wr : WaitOutcome) (ir : Except String InvocationResponse) (s : SessionData) :
    run_command (.error e) = none ∧
    run_command_on_instance ⟨.error e, wr, ir⟩ now instance_id command s =
      .ok (.sendFailed "Failed" "Failed to send command", s) := by
  exact ⟨rfl, run_command_on_instance_err _ _ _ _ _ rfl⟩

/-- C1: whenever a call proceeds past submission and its retrieval returns
the live output dictionary, the one record it appends stores at most 1000
characters of output; when the live retrieved output exceeds 1000 characters
the stored output is exactly its first 1000 characters; and the dictionary
returned to the caller carries the full untruncated live output. -/
theorem stored_output_truncated_to_1000 (env : RemoteEnv) (now instance_id command : String)
    (s : SessionData) (o : CommandOutput)
    (hsend : pyTruthy (run_command env.sendResult) = true)
    (hretr : get_command_output env.waitResult env.invocationResult true = .ok o) :
    ∃ rec : CommandRecord,
      run_command_on_instance env now instance_id command s =
        .ok (.completed o, { s with commands := s.commands ++ [rec] }) ∧
      rec.output.length ≤ 1000 ∧
      (1000 < o.Output.length → rec.output = o.Output.take 1000) := by
  refine ⟨commandRecordOf now instance_id command ((run_command env.sendResult).getD "") o,
    ?_, ?_, ?_⟩
  · exact run_command_on_instance_ok env now instance_id command s o hsend hretr
  · exact truncatedOutput_length_le _
  · intro hlen
    simp [commandRecordOf, truncatedOutput, hlen]

/-- Witness for C1 at a concrete call whose live output has 1001 characters. -/
theorem stored_output_truncated_to_1000_witness :
    ∃ rec : CommandRecord,
      run_command_on_instance
          ⟨.ok "cmd-1", .ok, .ok ⟨"Success", some (String.mk (List.replicate 1001 'a')), some ""⟩⟩
          "2025-01-01T00:00:00" "i-0123" "ls" ⟨"sid", "t0", []⟩ =
        .ok (.completed ⟨"Success", String.mk (List.replicate 1001 'a'), ""⟩,
          ⟨"sid", "t0", [] ++ [rec]⟩) ∧
      rec.output.length ≤ 1000 ∧
      (1000 < (String.mk (List.replicate 1001 'a')).length →
        rec.output = (String.mk (List.replicate 1001 'a')).take 1000) := by
  exact stored_output_truncated_to_1000 _ _ _ _ _
    ⟨"Success", String.mk (List.replicate 1001 'a'), ""⟩ rfl rfl

/-- The state one fold step leaves behind: the prior history followed by the
records that call appends (one when it completes, none when its submission
fails or its retrieval raises). -/
theorem runStep_commands (c : Call) (st : SessionData) :
    (match run_command_on_instance c.env c.now c.instance_id c.command st with
      | .ok (_, s2) => s2
      | .error _ => st).commands = st.commands ++ callRecords c := by
  by_cases hsend : pyTruthy (run_command c.env.sendResult) = true
  · cases hretr : get_command_output c.env.waitResult c.env.invocationResult true with
    | ok o =>
      rw [run_command_on_instance_ok c.env c.now c.instance_id c.command st o hsend hretr]
      simp [callRecords, hsend, hretr]
    | error e =>
      rw [run_command_on_instance_raise c.env c.now c.instance_id c.command e st hsend hretr]
      simp [callRecords, hsend, hretr]
  · have hsend' : pyTruthy (run_command c.env.sendResult) = false := by
      revert hsend
      cases pyTruthy (run_command c.env.sendResult) <;> simp
    rw [run_command_on_instance_err _ _ _ _ _ hsend']
    simp [callRecords, hsend']

/-- C2: the session history is append-only and ordered by call order — after
any sequence of calls it equals the prior history followed by each call's
appended records, call by call in order, with no entry removed or reordered;
and when every call both submits successfully (truthy command id) and has a
returning retrieval, exactly one record is appended per call — whatever the
retrieved status, "Failed" included — so N calls grow the history by exactly
N. -/
theorem history_append_order_eq_call_order (calls : List Call) (s : SessionData) :
    (runSequence calls s).commands = s.commands ++ calls.flatMap callRecords ∧
    ((∀ c ∈ calls, pyTruthy (run_command c.env.sendResult) = true ∧
        ∃ o, get_command_output c.env.waitResult c.env.invocationResult true = .ok o) →
      (runSequence calls s).commands.length = s.commands.length + calls.length) := by
  have main : ∀ (cs : List Call) (st : SessionData),
      (runSequence cs st).commands = st.commands ++ cs.flatMap callRecords := by
    intro cs
    induction cs with
    | nil => intro st; simp [runSequence]
    | cons c rest ih =>
      intro st
      show (runSequence rest _).commands = st.commands ++ (c :: rest).flatMap callRecords
      rw [ih, runStep_commands c st, List.flatMap_cons, List.append_assoc]
  have hlen : ∀ cs : List Call,
      (∀ c ∈ cs, pyTruthy (run_command c.env.sendResult) = true ∧
        ∃ o, get_command_output c.env.waitResult c.env.invocationResult true = .ok o) →
      (cs.flatMap callRecords).length = cs.length := by
    intro cs
    induction cs with
    | nil => intro _; rfl
    | cons c rest ih =>
      intro hcs
      obtain ⟨hsend, o, hretr⟩ := hcs c (by simp)
      have hrest := fun x hx => hcs x (List.mem_cons_of_mem _ hx)
      simp [List.flatMap_cons, callRecords, hsend, hretr, ih hrest]
  refine ⟨main calls s, fun h => ?_⟩
  rw [main calls s, List.length_append, hlen calls h]

/-- Witness for C2: two concrete calls, the second with a caught
retrieval-phase failure recorded with status "Failed", append exactly their
two records in call order to an empty history. -/
theorem history_append_order_eq_call_order_witness :
    (runSequence
        [⟨⟨.ok "cmd-1", .ok, .ok ⟨"Success", some "hello\n", some ""⟩⟩, "t1", "i-1", "ls"⟩,
         ⟨⟨.ok "cmd-2", .ok, .error "AccessDenied"⟩, "t2", "i-2", "pwd"⟩]
        ⟨"sid", "t0", []⟩).commands =
      [] ++
        [⟨⟨.ok "cmd-1", .ok, .ok ⟨"Success", some "hello\n", some ""⟩⟩, "t1", "i-1", "ls"⟩,
         ⟨⟨.ok "cmd-2", .ok, .error "AccessDenied"⟩, "t2", "i-2", "pwd"⟩].flatMap callRecords ∧
    (runSequence
        [⟨⟨.ok "cmd-1", .ok, .ok ⟨"Success", some "hello\n", some ""⟩⟩, "t1", "i-1", "ls"⟩,
         ⟨⟨.ok "cmd-2", .ok, .error "AccessDenied"⟩, "t2", "i-2", "pwd"⟩]
        ⟨"sid", "t0", []⟩).commands.length = ([] : List CommandRecord).length + 2 := by
  have h := history_append_order_eq_call_order
    [⟨⟨.ok "cmd-1", .ok, .ok ⟨"Success", some "hello\n", some ""⟩⟩, "t1", "i-1", "ls"⟩,
     ⟨⟨.ok "cmd-2", .ok, .error "AccessDenied"⟩, "t2", "i-2", "pwd"⟩]
    ⟨"sid", "t0", []⟩
  refine ⟨h.1, h.2 ?_⟩
  intro c hc
  simp only [List.mem_cons, List.not_mem_nil, or_false] at hc
  rcases hc with rfl | rfl
  · exact ⟨rfl, ⟨"Success", "hello\n", ""⟩, rfl⟩
  · exact ⟨rfl, ⟨"Failed", "", "AccessDenied"⟩, rfl⟩

/-- C4 (refuted at the wait phase): a `WaiterError` raised by the blocking
wait escapes the `except ClientError` handler and propagates out of
`get_command_output` — and out of `run_command_on_instance`, leaving the
session history untouched — whereas a `ClientError` raised by
`get_command_invocation` is caught and returned as the degraded dictionary
with status "Failed", empty output and the message, in either wait mode. -/
theorem wait_failure_propagates_fetch_failure_degraded (e : String)
    (ir : Except String InvocationResponse) (w : WaitOutcome)
    (now instance_id command : String) (s : SessionData) :
    get_command_output (.waiterError e) ir true = .error e ∧
    get_command_output .ok (.error e) true = .ok ⟨"Failed", "", e⟩ ∧
    get_command_output w (.error e) false = .ok ⟨"Failed", "", e⟩ ∧
    run_command_on_instance ⟨.ok "cmd-1", .waiterError e, ir⟩ now instance_id command s =
      .error e ∧
    runSequence [⟨⟨.ok "cmd-1", .waiterError e, ir⟩, now, instance_id, command⟩] s = s := by
  refine ⟨rfl, rfl, ?_, ?_, ?_⟩
  · cases w <;> rfl
  · exact run_command_on_instance_raise ⟨.ok "cmd-1", .waiterError e, ir⟩
      now instance_id command e s rfl rfl
  · show (match run_command_on_instance
        ⟨.ok "cmd-1", .waiterError e, ir⟩ now instance_id command s with
      | .ok (_, s2) => s2
      | .error _ => s) = s
    rw [run_command_on_instance_raise ⟨.ok "cmd-1", .waiterError e, ir⟩
      now instance_id command e s rfl rfl]

/-- Without the reachability filter every instance is kept. -/
theorem keepInstance_false (reg : SsmRegistry) (inst : RawInstance) :
    keepInstance reg false inst =
      some (mkInstanceInfo inst (instanceName inst.Tags)
        (check_ssm_status reg inst.InstanceId)) := rfl

/-- With the reachability filter an instance is kept exactly when its checked
status is "Available". -/
theorem keepInstance_true (reg : SsmRegistry) (inst : RawInstance) :
    keepInstance reg true inst =
      if check_ssm_status reg inst.InstanceId == "Available" then
        some (mkInstanceInfo inst (instanceName inst.Tags)
          (check_ssm_status reg inst.InstanceId))
      else
        none := by
  unfold keepInstance
  by_cases h : check_ssm_status reg inst.InstanceId == "Available" <;> simp [h]

/-- Per reservation, the filtered pass equals the unfiltered pass filtered on
the stored status. -/
theorem filterMap_keepInstance_true (reg : SsmRegistry) (l : List RawInstance) :
    l.filterMap (keepInstance reg true) =
      (l.filterMap (keepInstance reg false)).filter (fun i => i.SSM_Status == "Available") := by
  induction l with
  | nil => rfl
  | cons a t ih =>
    rw [List.filterMap_cons, List.filterMap_cons, keepInstance_false, keepInstance_true]
    by_cases h : check_ssm_status reg a.InstanceId == "Available" <;>
      simp [h, List.filter_cons, mkInstanceInfo, ih]

/-- On a successful directory query `list_instances` returns the flattened
per-reservation pass. -/
theorem list_instances_ok_eq (rs : List Reservation) (reg : SsmRegistry) (b : Bool) :
    list_instances (.ok rs) reg b =
      .ok (rs.flatMap fun r => r.Instances.filterMap (keepInstance reg b)) := rfl

/-- The whole reachable-only result is the unfiltered result filtered on the
stored status. -/
theorem flatMap_keepInstance_true (reg : SsmRegistry) (rs : List Reservation) :
    (rs.flatMap fun r => r.Instances.filterMap (keepInstance reg true)) =
      (rs.flatMap fun r => r.Instances.filterMap (keepInstance reg false)).filter
        (fun i => i.SSM_Status == "Available") := by
  induction rs with
  | nil => rfl
  | cons r t ih =>
    rw [List.flatMap_cons, List.flatMap_cons, List.filter_append,
      filterMap_keepInstance_true, ih]

/-- Every member of the reachable-only result has status "Available". -/
theorem mem_list_true_available (reg : SsmRegistry) (rs : List Reservation) (i : InstanceInfo)
    (hi : i ∈ rs.flatMap fun r => r.Instances.filterMap (keepInstance reg true)) :
    i.SSM_Status = "Available" := by
  rw [flatMap_keepInstance_true] at hi
  simpa using (List.mem_filter.mp hi).2

/-- C5: with the reachability filter on, `list_instances` returns exactly the
unfiltered result with every instance whose stored status is not "Available"
dropped, so no returned instance has a status other than "Available". -/
theorem reachable_only_drops_unavailable (rs : List Reservation) (reg : SsmRegistry) :
    ∃ l_all l_reach,
      list_instances (.ok rs) reg false = .ok l_all ∧
      list_instances (.ok rs) reg true = .ok l_reach ∧
      l_reach = l_all.filter (fun i => i.SSM_Status == "Available") ∧
      ∀ i ∈ l_reach, i.SSM_Status = "Available" := by
  refine ⟨_, _, list_instances_ok_eq rs reg false, list_instances_ok_eq rs reg true,
    flatMap_keepInstance_true reg rs, ?_⟩
  exact fun i hi => mem_list_true_available reg rs i hi

/-- C7: a failure of the primary `describe_instances` query propagates to the
caller unmodified, while `list_instances` never fails for any registry
behaviour on a successful query; the per-instance reachability check maps a
non-empty registry answer to "Available", an empty answer to "Not Available"
and a raised registry failure to "Unknown", never raising. -/
theorem directory_failure_fatal_reachability_degraded (e e2 : String) (b : Bool)
    (rs : List Reservation) (iid : String) (regA regB regC reg : SsmRegistry)
    (infoA : List String) (hA : regA iid = .ok infoA) (hAne : infoA ≠ [])
    (hB : regB iid = .ok []) (hC : regC iid = .error e2) :
    list_instances (.error e) reg b = .error e ∧
    (∃ l, list_instances (.ok rs) reg b = .ok l) ∧
    check_ssm_status regA iid = "Available" ∧
    check_ssm_status regB iid = "Not Available" ∧
    check_ssm_status regC iid = "Unknown" := by
  refine ⟨rfl, ⟨_, list_instances_ok_eq rs reg b⟩, ?_, ?_, ?_⟩
  · simp [check_ssm_status, hA, List.isEmpty_iff, hAne]
  · simp [check_ssm_status, hB]
  · simp [check_ssm_status, hC]

/-- Witness for C7 at concrete registries covering the three outcomes. -/
theorem directory_failure_fatal_reachability_degraded_witness :
    list_instances (.error "AuthFailure") (fun _ => .ok []) true = .error "AuthFailure" ∧
    (∃ l, list_instances (.ok []) (fun _ => .ok []) true = .ok l) ∧
    check_ssm_status (fun _ => .ok ["i-9"]) "i-9" = "Available" ∧
    check_ssm_status (fun _ => .ok []) "i-9" = "Not Available" ∧
    check_ssm_status (fun _ => .error "Throttling") "i-9" = "Unknown" := by
  exact directory_failure_fatal_reachability_degraded "AuthFailure" "Throttling" true [] "i-9"
    _ _ _ _ ["i-9"] rfl (by simp) rfl rfl

/-- Closed form of `generate_context` on a successful directory query:
a reduction of the definition used by the snapshot claims. -/
theorem generate_context_ok_eq (rs : List Reservation) (reg : SsmRegistry) (region : String)
    (inc : Bool) (s : SessionData) :
    generate_context (.ok rs) reg region inc s =
      .ok (let context : Context :=
            { schema_version := "v1"
              session_id := s.session_id
              session_start_time := s.start_time
              aws_region := region
              ec2_instances := format_instances_for_context
                (rs.flatMap fun r => r.Instances.filterMap (keepInstance reg true))
              command_history := none }
          if inc && !s.commands.isEmpty then
            { context with command_history := some s.commands }
          else
            context) := rfl

/-- C10: `generate_context` queries the directory with the `ssm_only=True`
default, so every instance entry of any snapshot it produces has
`ssm_status = "Available"`. -/
theorem snapshot_instances_all_available (rs : List Reservation) (reg : SsmRegistry)
    (region : String) (inc : Bool) (s : SessionData) (ctx : Context)
    (h : generate_context (.ok rs) reg region inc s = .ok ctx) :
    ∀ inst ∈ ctx.ec2_instances, inst.ssm_status = "Available" := by
  rw [generate_context_ok_eq] at h
  have hctx : ctx.ec2_instances = format_instances_for_context
      (rs.flatMap fun r => r.Instances.filterMap (keepInstance reg true)) := by
    have h' := Except.ok.inj h
    by_cases hc : (inc && !s.commands.isEmpty) = true <;> simp [hc] at h' <;>
      rw [← h']
  intro inst hinst
  rw [hctx] at hinst
  simp only [format_instances_for_context, List.mem_map] at hinst
  obtain ⟨i, hi, rfl⟩ := hinst
  exact mem_list_true_available reg rs i hi

/-- Witness for C10: the one instance of a concrete snapshot has
status "Available". -/
theorem snapshot_instances_all_available_witness :
    SimplifiedInstance.ssm_status
      ⟨"i-1", "web", "t2.micro", "10.0.0.1", "Linux/UNIX", "Available", [("Name", "web")]⟩ =
      "Available" := by
  exact snapshot_instances_all_available
    [⟨[⟨"i-1", "t2.micro", "running", some "10.0.0.1", none, none, some "Linux/UNIX",
        [⟨"Name", "web"⟩]⟩]⟩]
    (fun _ => .ok ["i-1"]) "us-east-1" false ⟨"sid", "t0", []⟩ _ rfl
    ⟨"i-1", "web", "t2.micro", "10.0.0.1", "Linux/UNIX", "Available", [("Name", "web")]⟩
    (by decide)

/-- C6: on a successful directory query the snapshot's history field is
present exactly when `include_commands` is true and the session history is
non-empty, and whenever present it is the session history verbatim. -/
theorem snapshot_history_field_iff (rs : List Reservation) (reg : SsmRegistry)
    (region : String) (inc : Bool) (s : SessionData) :
    ∃ ctx, generate_context (.ok rs) reg region inc s = .ok ctx ∧
      ((∃ h, ctx.command_history = some h) ↔ inc = true ∧ s.commands ≠ []) ∧
      (∀ h, ctx.command_history = some h → h = s.commands) := by
  refine ⟨_, generate_context_ok_eq rs reg region inc s, ?_, ?_⟩ <;>
    rcases inc with _ | _ <;> rcases hc : s.commands with _ | ⟨c, cs⟩ <;>
      simp [hc]

/-- C8: when the model-query service raises, `query_claude` does not
propagate: it returns exactly the fixed prefix "Error communicating with
Claude: " followed by the failure message, while a genuine model answer is
returned verbatim, so only the prefix distinguishes the two. -/
theorem query_claude_error_prefixed (e : String) :
    query_claude (.error e) = "Error communicating with Claude: " ++ e ∧
    ∀ t, query_claude (.ok t) = t := by
  exact ⟨rfl, fun _ => rfl⟩

end ClaudeMcp

namespace Fluffys

/-- C9 (evaluation at the failing input): with the token missing,
`_get_all_gh_runners` does return the one-element placeholder list whatever
the fetch would have done, but the exposed listing never surfaces it:
`list_runners_connected_to_github` raises a TypeError when the search string
matches the placeholder (here "GITHUB", matching case-insensitively inside
its JSON dump) and silently returns the empty list when it does not (here
"zzz"). -/
theorem gh_listing_missing_token_never_placeholder :
    (∀ fetch, _get_all_gh_runners none fetch =
      [.message "GITHUB_TOKEN_ADMIN_READ environment variable is not set."]) ∧
    list_runners_connected_to_github none (.ok []) "GITHUB" =
      .error "TypeError: string indices must be integers" ∧
    list_runners_connected_to_github none (.ok []) "zzz" = .ok [] := by
  refine ⟨fun fetch => ?_, ?_, ?_⟩
  · cases fetch <;> rfl
  · rfl
  · rfl

end Fluffys

